import Mathlib

/-!
Verification development for the Pipecat-Twilio assistant bots.

The repository's tool layer lives in `functions.py` and `tools.py`: two
near-identical modules providing `get_google_credentials`,
`get_calendar_events`, `get_gmail_emails` and `send_whatsapp_reminder`.
This file gives a shallow embedding of those handlers.  External
collaborators (the Google Calendar/Gmail REST services, the Twilio client,
the Pipecat frame sink `params.result_callback`, the filesystem, and
`os.getenv`) are modelled as oracle fields of explicit environment
structures: each field records the value the collaborator would return, or
the exception (as its `str(e)` message) that it would raise.  A handler
then becomes a pure function from its environment to an output record that
carries the returned string together with the trace of observable effects
(strings delivered to the result sink, provider queries issued, Twilio
message-create calls made, token-cache writes performed).

Python's `datetime` is modelled at one-second granularity: a `PyDateTime`
is a wall-clock reading (seconds since the epoch as shown on its own
clock) plus an optional fixed utcoffset; the process-local timezone is a
fixed offset parameter.  `str.replace`, `%I:%M %p` / ISO formatting and
`json.dumps(..., indent=2)` are translated as executable functions below.
Recursive helpers take an explicit fuel argument (always called with
enough fuel) so that every definition is structurally recursive and can be
evaluated by `decide`.
-/

/-- Decimal digit characters of a natural number, most significant first;
`fuel` bounds the recursion (any `fuel > n ≥ 1` is enough). Mirrors
Python `str(n)` for `n > 0`. -/
def natDigitsFuel : Nat → Nat → List Char → List Char
  | 0, _, acc => acc
  | fuel + 1, n, acc =>
      if n == 0 then acc
      else natDigitsFuel fuel (n / 10) (Nat.digitChar (n % 10) :: acc)

/-- Python `str(n)` for a natural number, as a character list. -/
def natChars (n : Nat) : List Char :=
  if n == 0 then [Char.ofNat 48] else natDigitsFuel (n + 1) n []

/-- Left-pad a digit string with zeros to width `w` (printf `%0wd`). -/
def zpad (w : Nat) (ds : List Char) : List Char :=
  List.replicate (w - ds.length) (Char.ofNat 48) ++ ds

/-- `%02d` of a natural number. -/
def pad2 (n : Nat) : String := String.mk (zpad 2 (natChars n))

/-- `%04d` of an integer (years in ISO timestamps). -/
def pad4i (z : Int) : String :=
  if z < 0 then String.mk (Char.ofNat 45 :: zpad 4 (natChars z.natAbs))
  else String.mk (zpad 4 (natChars z.toNat))

/-- Gregorian calendar date for a count of days since 1970-01-01
(Howard Hinnant's `civil_from_days`); used when rendering ISO timestamps. -/
def civilFromDays (z0 : Int) : Int × Nat × Nat :=
  let z : Int := z0 + 719468
  let era : Int := z.fdiv 146097
  let doe : Nat := (z - era * 146097).toNat
  let yoe : Nat := (doe - doe / 1460 + doe / 36524 - doe / 146096) / 365
  let y : Int := (yoe : Int) + era * 400
  let doy : Nat := doe - (365 * yoe + yoe / 4 - yoe / 100)
  let mp : Nat := (5 * doy + 2) / 153
  let d : Nat := doy - (153 * mp + 2) / 5 + 1
  let m : Nat := if mp < 10 then mp + 3 else mp - 9
  (if m <= 2 then y + 1 else y, m, d)

/-- A Python `datetime` at one-second granularity: `wall` is the reading of
its own clock (seconds since the epoch as that clock displays them) and
`tz` its fixed utcoffset in seconds (`none` for a naive datetime). -/
structure PyDateTime where
  wall : Int
  tz : Option Int
deriving DecidableEq

/-- `datetime.astimezone()` with no argument: convert to the local timezone
(offset `localOff` seconds east of UTC); a naive datetime is assumed to
already be in local time. -/
def astimezoneLocal (localOff : Int) (d : PyDateTime) : PyDateTime :=
  match d.tz with
  | some o => ⟨d.wall - o + localOff, some localOff⟩
  | none => ⟨d.wall, some localOff⟩

/-- `datetime.astimezone(timezone.utc)`: a naive datetime is assumed to be
in the local timezone (offset `localOff`). -/
def astimezoneUTC (localOff : Int) (d : PyDateTime) : PyDateTime :=
  match d.tz with
  | some o => ⟨d.wall - o, some 0⟩
  | none => ⟨d.wall - localOff, some 0⟩

/-- Seconds elapsed since midnight on the datetime's own wall clock. -/
def PyDateTime.timeOfDay (d : PyDateTime) : Nat := (d.wall.emod 86400).toNat

/-- `datetime.strftime("%I:%M %p")`: zero-padded 12-hour clock. -/
def strftimeIMp (d : PyDateTime) : String :=
  let tod : Nat := d.timeOfDay
  let h : Nat := tod / 3600
  let m : Nat := tod % 3600 / 60
  let h12 : Nat := if h % 12 == 0 then 12 else h % 12
  pad2 h12 ++ (":") ++ pad2 m ++ (" ") ++ (if h < 12 then ("AM") else ("PM"))

/-- The `YYYY-MM-DDTHH:MM:SS` core of `datetime.isoformat()`. -/
def isoCoreChars (wall : Int) : List Char :=
  let days : Int := wall.ediv 86400
  let tod : Nat := (wall.emod 86400).toNat
  let ymd := civilFromDays days
  (pad4i ymd.1).data ++ [Char.ofNat 45] ++ (pad2 ymd.2.1).data ++ [Char.ofNat 45]
    ++ (pad2 ymd.2.2).data ++ [Char.ofNat 84] ++ (pad2 (tod / 3600)).data
    ++ [Char.ofNat 58] ++ (pad2 (tod % 3600 / 60)).data ++ [Char.ofNat 58]
    ++ (pad2 (tod % 60)).data

/-- The `±HH:MM` utcoffset suffix of `datetime.isoformat()`. -/
def offsetChars (o : Int) : List Char :=
  (if o < 0 then [Char.ofNat 45] else [Char.ofNat 43])
    ++ (pad2 (o.natAbs / 3600)).data ++ [Char.ofNat 58]
    ++ (pad2 (o.natAbs % 3600 / 60)).data

/-- `datetime.isoformat()` (second granularity; naive datetimes get no
offset suffix, exactly as in Python). -/
def isoformat (d : PyDateTime) : String :=
  String.mk (isoCoreChars d.wall ++ (match d.tz with | none => [] | some o => offsetChars o))

/-- Python `str.replace(pat, rep)` on character lists: replace every
non-overlapping occurrence, scanning left to right.  `fuel` bounds the
recursion; `s.length` is always enough since each step consumes at least
one character.  (Python's special behaviour for an empty `pat` is not
reproduced; every use below has a non-empty pattern.) -/
def replaceFuel (pat rep : List Char) : Nat → List Char → List Char
  | _, [] => []
  | 0, s => s
  | fuel + 1, c :: rest =>
      if pat.isPrefixOf (c :: rest) then
        rep ++ replaceFuel pat rep fuel ((c :: rest).drop pat.length)
      else c :: replaceFuel pat rep fuel rest

/-- Python `str.replace` for strings. -/
def pyReplace (s pat rep : String) : String :=
  String.mk (replaceFuel pat.data rep.data s.data.length s.data)

/-- `dt.astimezone(timezone.utc).isoformat().replace('+00:00', 'Z')` — the
conversion both calendar handlers apply to the day bounds before passing
them to the Google Calendar query. -/
def utcIsoZ (localOff : Int) (d : PyDateTime) : String :=
  pyReplace (isoformat (astimezoneUTC localOff d)) ("+00:00") ("Z")

/-- The string ends in the character `Z`. -/
def EndsZ (s : String) : Prop := s.data.getLast? = some (Char.ofNat 90)

/-- A single apostrophe, as Python quotes names inside exception messages. -/
def pySq : String := String.mk [Char.ofNat 39]

/-- Python truthiness of an optional string (`None` and `""` are falsy). -/
def pyTruthy : Option String → Bool
  | none => false
  | some s => !(s == (""))

/-- Python `f"...{x}..."` interpolation of an optional string: `None`
renders as the text `None`. -/
def pyFStrOpt : Option String → String
  | some s => s
  | none => ("None")

/-! ## The Google OAuth credential manager (`get_google_credentials`)

The function is textually identical in `functions.py` and `tools.py`, so a
single embedding serves both.  The `google.oauth2.credentials.Credentials`
object is modelled by the fields the code reads; following that library,
`valid` means "has a token and is not expired".  `to_json` is modelled by a
`toJson` field carried by the credentials value. -/

/-- A `google.oauth2.credentials.Credentials` value, restricted to the
fields `get_google_credentials` consults. -/
structure Creds where
  token : Option String
  expired : Bool
  refresh_token : Option String
  toJson : String
deriving DecidableEq

/-- `Credentials.valid` (modelled from the google-auth library: a token is
present and not expired). -/
def Creds.valid (c : Creds) : Bool := c.token.isSome && !c.expired

/-- A raised Python exception, tagged with whether it is a
`FileNotFoundError`; the payload is `str(e)`. -/
inductive PyError where
  | fileNotFound (msg : String)
  | other (msg : String)
deriving DecidableEq

/-- `str(e)` of a raised exception. -/
def PyError.msg : PyError → String
  | .fileNotFound m => m
  | .other m => m

/-- Oracle environment for `get_google_credentials`: what `os.getenv`,
`os.path.exists`, `Credentials.from_authorized_user_file`, `creds.refresh`
and the interactive `InstalledAppFlow` would each yield during the call.
`refreshResult` is the credentials object after a successful in-place
`refresh`, or the exception it raises; `flowResult` likewise for
`flow.run_local_server(port=0)`. -/
structure GoogleAuthEnv where
  googleTokenPathVar : Option String
  googleCredentialsPathVar : Option String
  tokenFileExists : Bool
  loadedCreds : Creds
  refreshResult : Except PyError Creds
  credentialsFileExists : Bool
  flowResult : Except PyError Creds

deriving instance DecidableEq for Except

/-- Result of a `get_google_credentials` call: the returned credentials or
the raised exception, plus the call's observable effects (how many times
`creds.refresh` ran, how many interactive flows ran, and every
`(path, content)` write to the token cache). -/
structure AuthResult where
  result : Except PyError Creds
  refreshCalls : Nat
  flowRuns : Nat
  tokenWrites : List (String × String)
deriving DecidableEq

/-- The message of the `FileNotFoundError` raised when the client-secrets
file is absent. -/
def fileNotFoundMsg (credentials_path : String) : String :=
  ("Google credentials file not found at ") ++ credentials_path
    ++ (". Please set GOOGLE_CREDENTIALS_PATH in your .env file or place credentials.json in the project root.")

/-- `get_google_credentials` (`functions.py` lines 29-60 and, verbatim,
`tools.py` lines 28-59). -/
def get_google_credentials (env : GoogleAuthEnv) : AuthResult :=
  let token_path := env.googleTokenPathVar.getD ("token.json")
  let credentials_path := env.googleCredentialsPathVar.getD ("credentials.json")
  -- the `else` arm of `if creds and creds.expired and creds.refresh_token`
  let interactive : AuthResult :=
    if env.credentialsFileExists then
      match env.flowResult with
      | .error e => ⟨.error e, 0, 1, []⟩
      | .ok c2 => ⟨.ok c2, 0, 1, [(token_path, c2.toJson)]⟩
    else
      ⟨.error (.fileNotFound (fileNotFoundMsg credentials_path)), 0, 0, []⟩
  if env.tokenFileExists then
    let creds := env.loadedCreds
    if creds.valid then ⟨.ok creds, 0, 0, []⟩
    else if creds.expired && pyTruthy creds.refresh_token then
      match env.refreshResult with
      | .error e => ⟨.error e, 1, 0, []⟩
      | .ok c2 => ⟨.ok c2, 1, 0, [(token_path, c2.toJson)]⟩
    else interactive
  else interactive

/-- A handler's call to `get_google_credentials()`: the credentials, or the
propagated exception as the `str(e)` its `except` clause will format. -/
def credsStep (g : GoogleAuthEnv) : Except String Creds :=
  match (get_google_credentials g).result with
  | .ok c => .ok c
  | .error e => .error e.msg

/-! ## Google Calendar events and their normalization -/

/-- The `start`/`end` object of a Google Calendar event.  A timed event
carries `dateTime` (modelled already parsed: `datetime.fromisoformat` of
the provider's ISO string, whose text always contains a `T`); an all-day
event carries only `date` (a `YYYY-MM-DD` string, which the code probes
with `'T' in ...`). -/
structure GStart where
  dateTime : Option PyDateTime
  date : Option String
deriving DecidableEq

/-- A raw Google Calendar event, restricted to the fields the handlers
read. -/
structure GEvent where
  summary : Option String
  start : Option GStart
  end_ : Option GStart
deriving DecidableEq

/-- The `events().list(...)` query parameters the handler passes to the
provider. -/
structure CalQuery where
  calendarId : String
  timeMin : String
  timeMax : String
  maxResults : Nat
  singleEvents : Bool
  orderBy : String
deriving DecidableEq

/-- A normalized entry of the `functions.py` calendar handler. -/
structure CalEntryF where
  summary : String
  start_time : String
  end_time : String
deriving DecidableEq

/-- A normalized entry of the `tools.py` calendar handler (its `end_time`
can be Python `None`, serialized as JSON `null`). -/
structure CalEntryT where
  summary : String
  start_time : String
  end_time : Option String
deriving DecidableEq

/-- Environment of the `functions.py` calendar handler: the process-local
timezone offset (seconds east of UTC), the outcome of the initial
`push_frame`, the credential-manager environment, and the calendar
provider's response — `.ok` carries the `items` field of the
`events().list(...).execute()` response (`none` when the key is absent),
`.error` the `str(e)` of the exception the call raises.  Failures of
`build('calendar', 'v3', ...)` are folded into the latter. -/
structure CalendarEnvF where
  localOff : Int
  pushFrame : Except String Unit
  gauth : GoogleAuthEnv
  items : Except String (Option (List GEvent))

/-- Environment of the `tools.py` calendar handler (it pushes no frame). -/
structure CalendarEnvT where
  localOff : Int
  gauth : GoogleAuthEnv
  items : Except String (Option (List GEvent))

/-- Observable outcome of a calendar-handler invocation: the returned
string, the strings delivered to `params.result_callback` (in order), and
the provider queries issued. -/
structure CalendarOutput where
  ret : String
  delivered : List String
  queries : List CalQuery
deriving DecidableEq

/-- Escape one character as Python's `json.dumps` does inside a string. -/
def jsonEscapeChar (c : Char) : List Char :=
  if c == Char.ofNat 34 then [Char.ofNat 92, Char.ofNat 34]
  else if c == Char.ofNat 92 then [Char.ofNat 92, Char.ofNat 92]
  else if c == Char.ofNat 10 then [Char.ofNat 92, Char.ofNat 110]
  else if c == Char.ofNat 9 then [Char.ofNat 92, Char.ofNat 116]
  else if c == Char.ofNat 13 then [Char.ofNat 92, Char.ofNat 114]
  else if c == Char.ofNat 8 then [Char.ofNat 92, Char.ofNat 98]
  else if c == Char.ofNat 12 then [Char.ofNat 92, Char.ofNat 102]
  else if c.toNat < 32 then
    [Char.ofNat 92, Char.ofNat 117, Char.ofNat 48, Char.ofNat 48,
      Nat.digitChar (c.toNat / 16), Nat.digitChar (c.toNat % 16)]
  else [c]

/-- A JSON string literal, as `json.dumps` renders one. -/
def jsonStr (s : String) : String :=
  String.mk ([Char.ofNat 34] ++ (s.data.map jsonEscapeChar).flatten ++ [Char.ofNat 34])

/-- `json.dumps(filtered_events, indent=2)` for the `functions.py` entry
shape. -/
def jsonDumpsCalF (l : List CalEntryF) : String :=
  if l.isEmpty then ("[]")
  else
    ("[\n") ++ String.intercalate (",\n") (l.map (fun e =>
      ("  \x7b\n    \"summary\": ") ++ jsonStr e.summary
        ++ (",\n    \"start_time\": ") ++ jsonStr e.start_time
        ++ (",\n    \"end_time\": ") ++ jsonStr e.end_time ++ ("\n  \x7d"))) ++ ("\n]")

/-- `json.dumps(filtered_events, indent=2)` for the `tools.py` entry shape
(`None` renders as `null`). -/
def jsonDumpsCalT (l : List CalEntryT) : String :=
  if l.isEmpty then ("[]")
  else
    ("[\n") ++ String.intercalate (",\n") (l.map (fun e =>
      ("  \x7b\n    \"summary\": ") ++ jsonStr e.summary
        ++ (",\n    \"start_time\": ") ++ jsonStr e.start_time
        ++ (",\n    \"end_time\": ")
        ++ (match e.end_time with | none => ("null") | some s => jsonStr s)
        ++ ("\n  \x7d"))) ++ ("\n]")

/-- Sequential effectful loop over a list: Python's
`for x in xs: ys.append(f(x))` inside a `try`, stopping at the first
raised exception. -/
def mapE (f : α → Except String β) : List α → Except String (List β)
  | [] => .ok []
  | a :: as =>
    match f a with
    | .error e => .error e
    | .ok b =>
      match mapE f as with
      | .error e => .error e
      | .ok bs => .ok (b :: bs)

/-! ## Gmail messages and their normalization -/

/-- One entry of a Gmail message's header list. -/
structure GmailHeader where
  name : String
  value : String
deriving DecidableEq

/-- The `payload` object of a fetched Gmail message (only `headers` is
read). -/
structure GmailPayload where
  headers : Option (List GmailHeader)
deriving DecidableEq

/-- A fetched Gmail message (`format='metadata'`), restricted to the
fields the handlers read. -/
structure GmailMessage where
  snippet : Option String
  payload : Option GmailPayload
deriving DecidableEq

/-- A normalized email entry `{snippet, subject, from}`. -/
structure EmailEntry where
  snippet : String
  subject : String
  from_ : String
deriving DecidableEq

/-- `json.dumps(emails_list, indent=2)`. -/
def jsonDumpsEmails (l : List EmailEntry) : String :=
  if l.isEmpty then ("[]")
  else
    ("[\n") ++ String.intercalate (",\n") (l.map (fun e =>
      ("  \x7b\n    \"snippet\": ") ++ jsonStr e.snippet
        ++ (",\n    \"subject\": ") ++ jsonStr e.subject
        ++ (",\n    \"from\": ") ++ jsonStr e.from_ ++ ("\n  \x7d"))) ++ ("\n]")

/-- Environment of the `functions.py` Gmail handler.  `messages` is the
`messages` field of the `users().messages().list(...).execute()` response
(the message ids; each raw item's `id` field is modelled directly), and
`fetch id` the response of `users().messages().get(userId='me', id=id,
format='metadata').execute()`. -/
structure GmailEnvF where
  pushFrame : Except String Unit
  gauth : GoogleAuthEnv
  messages : Except String (Option (List String))
  fetch : String → Except String GmailMessage

/-- Environment of the `tools.py` Gmail handler (no frame push). -/
structure GmailEnvT where
  gauth : GoogleAuthEnv
  messages : Except String (Option (List String))
  fetch : String → Except String GmailMessage

/-- Observable outcome of a Gmail-handler invocation.  `normalized` is the
`emails_list` the handler serialized into its result (empty when the
invocation ended in the `except` clause). -/
structure GmailOutput where
  ret : String
  delivered : List String
  normalized : List EmailEntry
deriving DecidableEq

/-! ## WhatsApp (Twilio) -/

/-- The keyword arguments of one `client.messages.create(...)` call. -/
structure TwilioCall where
  from_ : String
  body : String
  to_ : String
deriving DecidableEq

/-- Environment of the WhatsApp handlers.  `createResult` is the SID of
the message the provider returns, or the `str(e)` of the exception raised
by `Client(...)`/`messages.create(...)`. -/
structure TwilioEnvF where
  pushFrame : Except String Unit
  account_sid : Option String
  auth_token : Option String
  twilio_whatsapp_number : Option String
  recipient_number : Option String
  createResult : Except String String

/-- `tools.py` variant of the WhatsApp environment (no frame push). -/
structure TwilioEnvT where
  account_sid : Option String
  auth_token : Option String
  twilio_whatsapp_number : Option String
  recipient_number : Option String
  createResult : Except String String

/-- Observable outcome of a WhatsApp-handler invocation: returned string,
sink deliveries, and the `messages.create` calls issued. -/
structure WaOutput where
  ret : String
  delivered : List String
  calls : List TwilioCall
deriving DecidableEq

/-! ## The `functions.py` handlers -/

namespace Functions

/-- The `except` clause of `get_calendar_events` (`functions.py` lines
133-137): format the error string, deliver it to the sink, return it. -/
def calendarErr (qs : List CalQuery) (e : String) : CalendarOutput :=
  let error_result := ("Error retrieving calendar events: ") ++ e
  ⟨error_result, [error_result], qs⟩

/-- The per-event step of the filtering loop (`functions.py` lines
105-124): keep only events carrying both a start and an end `dateTime`,
converting each to local time and 12-hour format. -/
def processEvent (localOff : Int) (event : GEvent) : Option CalEntryF :=
  let start_time_str := event.start.bind GStart.dateTime
  let end_time_str := event.end_.bind GStart.dateTime
  let summary := event.summary.getD ("Untitled Event")
  match start_time_str, end_time_str with
  | some sdt, some edt =>
      some ⟨summary, strftimeIMp (astimezoneLocal localOff sdt),
        strftimeIMp (astimezoneLocal localOff edt)⟩
  | _, _ => none

/-- `get_calendar_events` (`functions.py` lines 63-137).  `now` is the
wall-clock reading of `datetime.now()` (naive, local). -/
def get_calendar_events (env : CalendarEnvF) (now : Int) : CalendarOutput :=
  match env.pushFrame with
  | .error e => calendarErr [] e
  | .ok _ =>
    -- now.replace(hour=0, minute=0, second=0, microsecond=0)
    let today_start : Int := now - now.emod 86400
    let today_end : Int := today_start + 86400
    let time_min := utcIsoZ env.localOff ⟨today_start, none⟩
    let time_max := utcIsoZ env.localOff ⟨today_end, none⟩
    match credsStep env.gauth with
    | .error e => calendarErr [] e
    | .ok _ =>
      let q : CalQuery := ⟨("primary"), time_min, time_max, 50, true, ("startTime")⟩
      match env.items with
      | .error e => calendarErr [q] e
      | .ok itemsOpt =>
        let events := itemsOpt.getD []
        let filtered_events := events.filterMap (processEvent env.localOff)
        let result := jsonDumpsCalF filtered_events
        ⟨result, [result], [q]⟩

/-- The `except` clause of `get_gmail_emails` (`functions.py` lines
192-196). -/
def gmailErr (e : String) : GmailOutput :=
  let error_result := ("Error retrieving Gmail emails: ") ++ e
  ⟨error_result, [error_result], []⟩

/-- The per-message step of the fetch loop (`functions.py` lines 167-184).
Missing keys raise `KeyError` (whose `str` is the quoted key) and a
missing `Subject`/`From` header makes the undefaulted `next(...)` raise
`StopIteration` (whose `str` is empty). -/
def processMessage (fetch : String → Except String GmailMessage) (id : String) :
    Except String EmailEntry :=
  match fetch id with
  | .error e => .error e
  | .ok message =>
    match message.snippet with
    | none => .error (pySq ++ ("snippet") ++ pySq)
    | some snippet =>
      match message.payload with
      | none => .error (pySq ++ ("payload") ++ pySq)
      | some payload =>
        match payload.headers with
        | none => .error (pySq ++ ("headers") ++ pySq)
        | some headers =>
          match headers.find? (fun h => h.name == ("Subject")) with
          | none => .error ("")
          | some hs =>
            match headers.find? (fun h => h.name == ("From")) with
            | none => .error ("")
            | some hf => .ok ⟨snippet, hs.value, hf.value⟩

/-- `get_gmail_emails` (`functions.py` lines 140-196). -/
def get_gmail_emails (env : GmailEnvF) : GmailOutput :=
  match env.pushFrame with
  | .error e => gmailErr e
  | .ok _ =>
    match credsStep env.gauth with
    | .error e => gmailErr e
    | .ok _ =>
      match env.messages with
      | .error e => gmailErr e
      | .ok messagesOpt =>
        let message_ids := messagesOpt.getD []
        match mapE (processMessage env.fetch) message_ids with
        | .error e => gmailErr e
        | .ok emails_list =>
          let result := jsonDumpsEmails emails_list
          ⟨result, [result], emails_list⟩

/-- The `except` clause of `send_whatsapp_reminder` (`functions.py` lines
242-246). -/
def waErr (cs : List TwilioCall) (e : String) : WaOutput :=
  let error_result := ("Error sending WhatsApp reminder: ") ++ e
  ⟨error_result, [error_result], cs⟩

/-- `send_whatsapp_reminder` (`functions.py` lines 199-246).  `arguments`
is the LLM-supplied argument mapping. -/
def send_whatsapp_reminder (env : TwilioEnvF) (arguments : List (String × String)) :
    WaOutput :=
  match env.pushFrame with
  | .error e => waErr [] e
  | .ok _ =>
    let reminder_text := (arguments.lookup ("reminder_text")).getD ("")
    let from_number := ("whatsapp:") ++ pyFStrOpt env.twilio_whatsapp_number
    let to_number := ("whatsapp:") ++ pyFStrOpt env.recipient_number
    let call : TwilioCall := ⟨from_number, reminder_text, to_number⟩
    match env.createResult with
    | .error e => waErr [call] e
    | .ok _sid =>
      let result := ("Reminder sent to WhatsApp successfully!")
      ⟨result, [result], [call]⟩

end Functions

/-! ## The `tools.py` handlers -/

namespace Tools

/-- The `except` clause of `get_calendar_events` (`tools.py` lines
145-149). -/
def calendarErr (qs : List CalQuery) (e : String) : CalendarOutput :=
  let error_result := ("Error retrieving calendar events: ") ++ e
  ⟨error_result, [error_result], qs⟩

/-- `str(KeyError('start'))`, raised by `event['start']` on an event with
no `start` key. -/
def keyErrorStart : String := pySq ++ ("start") ++ pySq

/-- `str(TypeError(...))` raised by `'T' in None` when an event's `start`
has neither `dateTime` nor `date`. -/
def noneTypeMsg : String :=
  ("argument of type ") ++ pySq ++ ("NoneType") ++ pySq ++ (" is not iterable")

/-- The message of the `ValueError` that `datetime.fromisoformat` raises.
(Reached only when an all-day `date` string contains a `T`; real provider
data never does, and the theorems below exclude this corner by
hypothesis.) -/
def invalidIsoMsg (s : String) : String :=
  ("Invalid isoformat string: ") ++ pySq ++ s ++ pySq

/-- `event['start'].get('dateTime', event['start'].get('date'))` — either
the (parsed) `dateTime`, the raw `date` string, or Python `None`. -/
def startVal (st : GStart) : Option (Sum PyDateTime String) :=
  match st.dateTime with
  | some dt => some (Sum.inl dt)
  | none => st.date.map Sum.inr

/-- `tools.py` lines 106-116: format the start, or label `"All day"`; the
`'T' in ...` membership test on `None` raises. -/
def startTime (localOff : Int) (sv : Option (Sum PyDateTime String)) :
    Except String String :=
  match sv with
  | none => .error noneTypeMsg
  | some (Sum.inl dt) =>
      -- an ISO dateTime string always contains 'T'; parse, localize if aware
      let start_dt := if dt.tz.isSome then astimezoneLocal localOff dt else dt
      .ok (strftimeIMp start_dt)
  | some (Sum.inr s) =>
      if s.data.contains (Char.ofNat 84) then .error (invalidIsoMsg s)
      else .ok ("All day")

/-- `tools.py` lines 119-131: `end` defaults to `''` when the event has no
usable end; format it, label `"All day"`, or leave it `None`. -/
def endTime (localOff : Int) (event : GEvent) : Except String (Option String) :=
  let endv : Sum PyDateTime String :=
    match event.end_.bind GStart.dateTime with
    | some dt => Sum.inl dt
    | none => Sum.inr ((event.end_.bind GStart.date).getD (""))
  match endv with
  | .inl dt =>
      let end_dt := if dt.tz.isSome then astimezoneLocal localOff dt else dt
      .ok (some (strftimeIMp end_dt))
  | .inr s =>
      if s == ("") then .ok none
      else if s.data.contains (Char.ofNat 84) then .error (invalidIsoMsg s)
      else .ok (some ("All day"))

/-- The per-event step of the normalization loop (`tools.py` lines
102-137); unlike the `functions.py` variant it never skips an event, but
raw subscripting can raise. -/
def processEvent (localOff : Int) (event : GEvent) : Except String CalEntryT :=
  let summary := event.summary.getD ("No title")
  match event.start with
  | none => .error keyErrorStart
  | some st =>
    match startTime localOff (startVal st) with
    | .error e => .error e
    | .ok start_time =>
      match endTime localOff event with
      | .error e => .error e
      | .ok end_time => .ok ⟨summary, start_time, end_time⟩

/-- `get_calendar_events` (`tools.py` lines 62-149).  `now` is the
wall-clock reading of `datetime.now(local_tz)`. -/
def get_calendar_events (env : CalendarEnvT) (now : Int) : CalendarOutput :=
  -- datetime.now(local_tz).replace(hour=0, minute=0, second=0, microsecond=0)
  let today : Int := now - now.emod 86400
  let start_of_day : Int := today
  let end_of_day : Int := today + 86400 - 1
  let time_min := utcIsoZ env.localOff ⟨start_of_day, some env.localOff⟩
  let time_max := utcIsoZ env.localOff ⟨end_of_day, some env.localOff⟩
  match credsStep env.gauth with
  | .error e => calendarErr [] e
  | .ok _ =>
    let q : CalQuery := ⟨("primary"), time_min, time_max, 50, true, ("startTime")⟩
    match env.items with
    | .error e => calendarErr [q] e
    | .ok itemsOpt =>
      let events := itemsOpt.getD []
      match mapE (processEvent env.localOff) events with
      | .error e => calendarErr [q] e
      | .ok filtered_events =>
        let result := jsonDumpsCalT filtered_events
        ⟨result, [result], [q]⟩

/-- The `except` clause of `get_gmail_emails` (`tools.py` lines 203-207). -/
def gmailErr (e : String) : GmailOutput :=
  let error_result := ("Error retrieving Gmail emails: ") ++ e
  ⟨error_result, [error_result], []⟩

/-- The per-message step of the fetch loop (`tools.py` lines 176-195):
`snippet` and the headers are defaulted with `.get`, and the two
`next(..., default)` calls fall back to placeholder strings. -/
def processMessage (fetch : String → Except String GmailMessage) (id : String) :
    Except String EmailEntry :=
  match fetch id with
  | .error e => .error e
  | .ok message =>
    let snippet := message.snippet.getD ("")
    match message.payload with
    | none => .error (pySq ++ ("payload") ++ pySq)
    | some payload =>
      let headers := payload.headers.getD []
      let subject :=
        ((headers.find? (fun h => h.name == ("Subject"))).map GmailHeader.value).getD
          ("No subject")
      let sender :=
        ((headers.find? (fun h => h.name == ("From"))).map GmailHeader.value).getD
          ("Unknown sender")
      .ok ⟨snippet, subject, sender⟩

/-- `get_gmail_emails` (`tools.py` lines 152-207). -/
def get_gmail_emails (env : GmailEnvT) : GmailOutput :=
  match credsStep env.gauth with
  | .error e => gmailErr e
  | .ok _ =>
    match env.messages with
    | .error e => gmailErr e
    | .ok messagesOpt =>
      let message_ids := messagesOpt.getD []
      match mapE (processMessage env.fetch) message_ids with
      | .error e => gmailErr e
      | .ok emails_list =>
        let result := jsonDumpsEmails emails_list
        ⟨result, [result], emails_list⟩

/-- The `except` clause of `send_whatsapp_reminder` (`tools.py` lines
250-254). -/
def waErr (cs : List TwilioCall) (e : String) : WaOutput :=
  let error_result := ("Error sending WhatsApp reminder: ") ++ e
  ⟨error_result, [error_result], cs⟩

/-- `send_whatsapp_reminder` (`tools.py` lines 210-254). -/
def send_whatsapp_reminder (env : TwilioEnvT) (arguments : List (String × String)) :
    WaOutput :=
  let reminder_text := (arguments.lookup ("reminder_text")).getD ("")
  let from_number := ("whatsapp:") ++ pyFStrOpt env.twilio_whatsapp_number
  let to_number := ("whatsapp:") ++ pyFStrOpt env.recipient_number
  let call : TwilioCall := ⟨from_number, reminder_text, to_number⟩
  match env.createResult with
  | .error e => waErr [call] e
  | .ok _sid =>
    let result := ("Reminder sent to WhatsApp successfully!")
    ⟨result, [result], [call]⟩

end Tools

/-! ## Predicates used by the specification claims -/

/-- The event is timed: both `start` and `end` carry a `dateTime`
(the condition of the `functions.py` filter). -/
def eventTimed (e : GEvent) : Bool :=
  (e.start.bind GStart.dateTime).isSome && (e.end_.bind GStart.dateTime).isSome

/-- The string has no `T` character. -/
def noT (s : String) : Bool := !(s.data.contains (Char.ofNat 84))

/-- The event is a well-formed all-day event: `start` and `end` exist and
carry a non-empty `date` (with no `T`, as provider `YYYY-MM-DD` values)
and no `dateTime`. -/
def eventAllDay (e : GEvent) : Bool :=
  match e.start, e.end_ with
  | some st, some en =>
      st.dateTime.isNone && en.dateTime.isNone &&
        (match st.date, en.date with
         | some ds, some de => noT ds && noT de && !(ds == ("")) && !(de == (""))
         | _, _ => false)
  | _, _ => false

/-- The string is a zero-padded 12-hour clock reading `hh:mm AM/PM`. -/
def Is12h (s : String) : Prop :=
  ∃ h m ap, 1 ≤ h ∧ h ≤ 12 ∧ m < 60 ∧ (ap = ("AM") ∨ ap = ("PM")) ∧
    s = pad2 h ++ (":") ++ pad2 m ++ (" ") ++ ap

/-- Does `sub` occur contiguously inside `s`?  Models the Python `in`
operator on strings. -/
def isSubstr : List Char → List Char → Bool
  | sub, [] => sub.isEmpty
  | sub, c :: rest => sub.isPrefixOf (c :: rest) || isSubstr sub rest

/-- Python `sub in s` for strings. -/
def pyInStr (sub s : String) : Bool := isSubstr sub.data s.data

/-- The string starts with the word `Error`. -/
def StartsWithError (s : String) : Prop := ∃ t, s = ("Error") ++ t

/-- Some step inside the `try` body of the `functions.py` calendar handler
raises. -/
def CalendarEnvF.anyRaise (env : CalendarEnvF) : Prop :=
  (∃ e, env.pushFrame = .error e) ∨ (∃ e, credsStep env.gauth = .error e) ∨
    (∃ e, env.items = .error e)

/-- Some step inside the `try` body of the `tools.py` calendar handler
raises. -/
def CalendarEnvT.anyRaise (env : CalendarEnvT) : Prop :=
  (∃ e, credsStep env.gauth = .error e) ∨ (∃ e, env.items = .error e) ∨
    (∃ l e, env.items = .ok l ∧
      mapE (Tools.processEvent env.localOff) (l.getD []) = .error e)

/-- Some step inside the `try` body of the `functions.py` Gmail handler
raises. -/
def GmailEnvF.anyRaise (env : GmailEnvF) : Prop :=
  (∃ e, env.pushFrame = .error e) ∨ (∃ e, credsStep env.gauth = .error e) ∨
    (∃ e, env.messages = .error e) ∨
    (∃ l e, env.messages = .ok l ∧
      mapE (Functions.processMessage env.fetch) (l.getD []) = .error e)

/-- Some step inside the `try` body of the `tools.py` Gmail handler
raises. -/
def GmailEnvT.anyRaise (env : GmailEnvT) : Prop :=
  (∃ e, credsStep env.gauth = .error e) ∨ (∃ e, env.messages = .error e) ∨
    (∃ l e, env.messages = .ok l ∧
      mapE (Tools.processMessage env.fetch) (l.getD []) = .error e)

/-- Some step inside the `try` body of the `functions.py` WhatsApp handler
raises. -/
def TwilioEnvF.anyRaise (env : TwilioEnvF) : Prop :=
  (∃ e, env.pushFrame = .error e) ∨ (∃ e, env.createResult = .error e)

/-- Some step inside the `try` body of the `tools.py` WhatsApp handler
raises. -/
def TwilioEnvT.anyRaise (env : TwilioEnvT) : Prop :=
  ∃ e, env.createResult = .error e

/-! ## Concrete fixtures for witnesses and counterexamples -/

/-- A valid cached credential. -/
def validCreds : Creds := ⟨some ("ya29.cached"), false, none, ("cached-token-json")⟩

/-- An expired cached credential carrying a refresh token. -/
def expiredCreds : Creds :=
  ⟨some ("ya29.stale"), true, some ("refresh-1"), ("stale-token-json")⟩

/-- The credential after a successful refresh. -/
def refreshedCreds : Creds :=
  ⟨some ("ya29.fresh"), false, some ("refresh-1"), ("refreshed-token-json")⟩

/-- Auth environment with a valid cached token. -/
def authEnvOk : GoogleAuthEnv :=
  ⟨none, none, true, validCreds, .ok refreshedCreds, true, .ok refreshedCreds⟩

/-- Auth environment with an expired, refreshable cached token. -/
def authEnvExpired : GoogleAuthEnv :=
  ⟨some ("tok-cache.json"), none, true, expiredCreds, .ok refreshedCreds, true,
    .ok refreshedCreds⟩

/-- Auth environment with no cached token and no client-secrets file. -/
def authEnvNoFiles : GoogleAuthEnv :=
  ⟨none, some ("conf/credentials.json"), false, validCreds, .ok refreshedCreds, false,
    .ok refreshedCreds⟩

/-- A timed calendar event, 09:00-10:00 UTC. -/
def timedEvent : GEvent :=
  ⟨some ("Standup"), some ⟨some ⟨32400, some 0⟩, none⟩, some ⟨some ⟨36000, some 0⟩, none⟩⟩

/-- An all-day calendar event. -/
def alldayEvent : GEvent :=
  ⟨some ("Holiday"), some ⟨none, some ("1970-01-02")⟩, some ⟨none, some ("1970-01-03")⟩⟩

/-- A two-event provider response: one timed, one all-day. -/
def wEvts : List GEvent := [timedEvent, alldayEvent]

/-- Working `functions.py` calendar environment returning `wEvts`. -/
def calendarEnvFW : CalendarEnvF := ⟨0, .ok (), authEnvOk, .ok (some wEvts)⟩

/-- Working `tools.py` calendar environment returning `wEvts`. -/
def calendarEnvTW : CalendarEnvT := ⟨0, authEnvOk, .ok (some wEvts)⟩

/-- `functions.py` calendar environment whose frame push raises. -/
def calendarEnvFBad : CalendarEnvF := ⟨0, .error ("boom"), authEnvOk, .ok (some [])⟩

/-- `tools.py` calendar environment whose provider query raises. -/
def calendarEnvTBad : CalendarEnvT := ⟨0, authEnvOk, .error ("boom")⟩

/-- A fetched message whose header list has neither a `Subject` nor a
`From` header. -/
def noSubjectMsg : GmailMessage :=
  ⟨some ("You got mail"), some ⟨some [⟨("X-Priority"), ("1")⟩]⟩⟩

/-- `functions.py` Gmail environment delivering one message without a
`Subject` header. -/
def gmailEnvNoSubjF : GmailEnvF :=
  ⟨.ok (), authEnvOk, .ok (some [("id1")]), fun _ => .ok noSubjectMsg⟩

/-- `tools.py` Gmail environment delivering one message without a
`Subject` header. -/
def gmailEnvNoSubjT : GmailEnvT :=
  ⟨authEnvOk, .ok (some [("id1")]), fun _ => .ok noSubjectMsg⟩

/-- `functions.py` Gmail environment whose frame push raises. -/
def gmailEnvFBad : GmailEnvF :=
  ⟨.error ("boom"), authEnvOk, .ok (some []), fun _ => .ok noSubjectMsg⟩

/-- `tools.py` Gmail environment whose provider listing raises. -/
def gmailEnvTBad : GmailEnvT :=
  ⟨authEnvOk, .error ("boom"), fun _ => .ok noSubjectMsg⟩

/-- Working `functions.py` WhatsApp environment. -/
def waEnvFOk : TwilioEnvF :=
  ⟨.ok (), some ("AC123"), some ("authtok"), some ("+14155238886"),
    some ("+16507303690"), .ok ("SM123")⟩

/-- Working `tools.py` WhatsApp environment. -/
def waEnvTOk : TwilioEnvT :=
  ⟨some ("AC123"), some ("authtok"), some ("+14155238886"), some ("+16507303690"),
    .ok ("SM123")⟩

/-- `functions.py` WhatsApp environment whose frame push raises. -/
def waEnvFBad : TwilioEnvF :=
  ⟨.error ("boom"), none, none, some ("+14155238886"), some ("+16507303690"),
    .ok ("SM123")⟩

/-- `tools.py` WhatsApp environment whose `messages.create` raises. -/
def waEnvTBad : TwilioEnvT :=
  ⟨none, none, some ("+14155238886"), some ("+16507303690"), .error ("boom")⟩

/-- An argument mapping supplying `reminder_text`. -/
def waArgs : List (String × String) := [(("reminder_text"), ("Buy milk at 5pm"))]

/-- An argument mapping with no `reminder_text` key. -/
def waArgsEmpty : List (String × String) := []

/-! ## Support lemmas -/

theorem digitChar_isDigit : ∀ d < 10, (Nat.digitChar d).isDigit = true := by decide

theorem natDigitsFuel_digits :
    ∀ (fuel n : Nat) (acc : List Char), (∀ c ∈ acc, c.isDigit = true) →
      ∀ c ∈ natDigitsFuel fuel n acc, c.isDigit = true := by
  intro fuel
  induction fuel with
  | zero => intro n acc hacc; simpa [natDigitsFuel] using hacc
  | succ f ih =>
    intro n acc hacc c hc
    rw [natDigitsFuel] at hc
    by_cases hn : (n == 0) = true
    · rw [if_pos hn] at hc; exact hacc c hc
    · rw [if_neg hn] at hc
      refine ih (n / 10) _ ?_ c hc
      intro c' hc'
      rcases List.mem_cons.mp hc' with h | h
      · subst h; exact digitChar_isDigit (n % 10) (Nat.mod_lt n (by omega))
      · exact hacc c' h

theorem natChars_digits (n : Nat) : ∀ c ∈ natChars n, c.isDigit = true := by
  intro c hc
  rw [natChars] at hc
  by_cases hn : (n == 0) = true
  · rw [if_pos hn] at hc; simp at hc; subst hc; decide
  · rw [if_neg hn] at hc
    exact natDigitsFuel_digits (n + 1) n [] (by simp) c hc

theorem zpad_digits (w : Nat) (ds : List Char) (h : ∀ c ∈ ds, c.isDigit = true) :
    ∀ c ∈ zpad w ds, c.isDigit = true := by
  intro c hc
  rcases List.mem_append.mp hc with h' | h'
  · have := List.eq_of_mem_replicate h'
    subst this; decide
  · exact h c h'

theorem pad2_digits (n : Nat) : ∀ c ∈ (pad2 n).data, c.isDigit = true := by
  intro c hc
  exact zpad_digits 2 (natChars n) (natChars_digits n) c hc

theorem isDigit_ne_plus (c : Char) (h : c.isDigit = true) : c ≠ Char.ofNat 43 := by
  intro he; subst he; exact absurd h (by decide)

theorem pad4i_no_plus (z : Int) : ∀ c ∈ (pad4i z).data, c ≠ Char.ofNat 43 := by
  intro c hc
  rw [pad4i] at hc
  by_cases hz : z < 0
  · rw [if_pos hz] at hc
    rcases List.mem_cons.mp hc with h | h
    · subst h; decide
    · exact isDigit_ne_plus c (zpad_digits 4 _ (natChars_digits _) c h)
  · rw [if_neg hz] at hc
    exact isDigit_ne_plus c (zpad_digits 4 _ (natChars_digits _) c hc)

theorem isoCoreChars_no_plus (w : Int) : ∀ c ∈ isoCoreChars w, c ≠ Char.ofNat 43 := by
  intro c hc
  simp only [isoCoreChars, List.append_assoc, List.mem_append, List.mem_singleton] at hc
  rcases hc with h | h | h | h | h | h | h | h | h | h | h
  · exact pad4i_no_plus _ c h
  · subst h; decide
  · exact isDigit_ne_plus c (pad2_digits _ c h)
  · subst h; decide
  · exact isDigit_ne_plus c (pad2_digits _ c h)
  · subst h; decide
  · exact isDigit_ne_plus c (pad2_digits _ c h)
  · subst h; decide
  · exact isDigit_ne_plus c (pad2_digits _ c h)
  · subst h; decide
  · exact isDigit_ne_plus c (pad2_digits _ c h)

theorem plusPat_data :
    ("+00:00").data = Char.ofNat 43 ::
      [Char.ofNat 48, Char.ofNat 48, Char.ofNat 58, Char.ofNat 48, Char.ofNat 48] := by
  decide

theorem replaceFuel_plus_suffix :
    ∀ (pre : List Char), (∀ c ∈ pre, c ≠ Char.ofNat 43) →
      ∀ fuel : Nat, pre.length + 6 ≤ fuel →
        replaceFuel (("+00:00").data) (("Z").data) fuel (pre ++ ("+00:00").data)
          = pre ++ ("Z").data := by
  intro pre
  induction pre with
  | nil =>
    intro _ fuel hf
    match fuel, hf with
    | f + 1, _ =>
      rw [List.nil_append, List.nil_append, plusPat_data, replaceFuel,
        if_pos (by decide)]
      simp [replaceFuel]
  | cons c pre ih =>
    intro hne fuel hf
    match fuel, hf with
    | f + 1, hf =>
      rw [List.cons_append, plusPat_data, replaceFuel, if_neg ?_, ← plusPat_data]
      · rw [List.cons_append]
        congr 1
        exact ih (fun c' hc' => hne c' (List.mem_cons_of_mem c hc')) f (by
          simp at hf ⊢; omega)
      · have hc : c ≠ Char.ofNat 43 := hne c (List.mem_cons_self c pre)
        simp only [List.isPrefixOf, Bool.and_eq_true, beq_iff_eq]
        intro hand
        exact hc hand.1.symm

theorem astimezoneUTC_tz (off : Int) (d : PyDateTime) : (astimezoneUTC off d).tz = some 0 := by
  rcases d with ⟨w, tz⟩
  cases tz <;> rfl

theorem offsetChars_zero : offsetChars 0 = ("+00:00").data := by decide

theorem isoformat_utc_data (off : Int) (d : PyDateTime) :
    (isoformat (astimezoneUTC off d)).data
      = isoCoreChars (astimezoneUTC off d).wall ++ ("+00:00").data := by
  simp [isoformat, astimezoneUTC_tz, offsetChars_zero]

theorem stringMk_data (l : List Char) : (String.mk l).data = l := rfl

theorem utcIsoZ_data (off : Int) (d : PyDateTime) :
    (utcIsoZ off d).data = isoCoreChars (astimezoneUTC off d).wall ++ ("Z").data := by
  simp only [utcIsoZ, pyReplace, stringMk_data]
  rw [isoformat_utc_data]
  refine replaceFuel_plus_suffix _ (isoCoreChars_no_plus _) _ ?_
  simp [plusPat_data]

theorem utcIsoZ_endsZ (off : Int) (d : PyDateTime) : EndsZ (utcIsoZ off d) := by
  unfold EndsZ
  rw [utcIsoZ_data]
  rw [show ("Z").data = [Char.ofNat 90] from by decide, List.getLast?_concat]

theorem strftimeIMp_is12h (d : PyDateTime) : Is12h (strftimeIMp d) := by
  simp only [strftimeIMp]
  refine ⟨(if d.timeOfDay / 3600 % 12 == 0 then 12 else d.timeOfDay / 3600 % 12),
    d.timeOfDay % 3600 / 60,
    (if d.timeOfDay / 3600 < 12 then ("AM") else ("PM")), ?_, ?_, ?_, ?_, rfl⟩
  · split
    · omega
    · rename_i hb
      have : d.timeOfDay / 3600 % 12 ≠ 0 := by simpa using hb
      omega
  · split
    · omega
    · have : d.timeOfDay / 3600 % 12 < 12 := Nat.mod_lt _ (by omega)
      omega
  · have h1 : d.timeOfDay % 3600 < 3600 := Nat.mod_lt _ (by omega)
    omega
  · split
    · exact Or.inl rfl
    · exact Or.inr rfl

theorem strAppend_assoc (s t u : String) : s ++ t ++ u = s ++ (t ++ u) := by
  apply String.ext
  simp [String.data_append, List.append_assoc]

theorem startsWithError_calendar (e : String) :
    StartsWithError (("Error retrieving calendar events: ") ++ e) := by
  refine ⟨(" retrieving calendar events: ") ++ e, ?_⟩
  rw [← strAppend_assoc]
  rfl

theorem startsWithError_gmail (e : String) :
    StartsWithError (("Error retrieving Gmail emails: ") ++ e) := by
  refine ⟨(" retrieving Gmail emails: ") ++ e, ?_⟩
  rw [← strAppend_assoc]
  rfl

theorem startsWithError_wa (e : String) :
    StartsWithError (("Error sending WhatsApp reminder: ") ++ e) := by
  refine ⟨(" sending WhatsApp reminder: ") ++ e, ?_⟩
  rw [← strAppend_assoc]
  rfl

theorem length_filterMap_eq_countP {α β : Type} (f : α → Option β) (p : α → Bool)
    (hfp : ∀ a, (f a).isSome = p a) :
    ∀ l : List α, (l.filterMap f).length = l.countP p := by
  intro l
  induction l with
  | nil => simp
  | cons a l ih =>
    rw [List.filterMap_cons, List.countP_cons]
    cases hfa : f a with
    | none =>
      have : p a = false := by rw [← hfp a, hfa]; rfl
      simp [this, ih]
    | some b =>
      have : p a = true := by rw [← hfp a, hfa]; rfl
      simp [this, ih]

theorem mapE_ok_of_forall {α β : Type} (f : α → Except String β) (P : β → Prop) :
    ∀ l : List α, (∀ a ∈ l, ∃ b, f a = .ok b ∧ P b) →
      ∃ bs, mapE f l = .ok bs ∧ bs.length = l.length ∧ ∀ b ∈ bs, P b := by
  intro l
  induction l with
  | nil => intro _; exact ⟨[], rfl, rfl, by simp⟩
  | cons a l ih =>
    intro h
    obtain ⟨b, hb, hPb⟩ := h a (List.mem_cons_self a l)
    obtain ⟨bs, hbs, hlen, hall⟩ := ih (fun a' ha' => h a' (List.mem_cons_of_mem a ha'))
    refine ⟨b :: bs, ?_, by simp [hlen], ?_⟩
    · rw [mapE, hb, hbs]
    · intro b' hb'
      rcases List.mem_cons.mp hb' with h' | h'
      · subst h'; exact hPb
      · exact hall b' h'

theorem calF_sink (env : CalendarEnvF) (now : Int) :
    (Functions.get_calendar_events env now).delivered
      = [(Functions.get_calendar_events env now).ret] := by
  unfold Functions.get_calendar_events
  repeat' first
  | split
  | dsimp only
  all_goals simp [Functions.calendarErr]

theorem calT_sink (env : CalendarEnvT) (now : Int) :
    (Tools.get_calendar_events env now).delivered
      = [(Tools.get_calendar_events env now).ret] := by
  unfold Tools.get_calendar_events
  repeat' first
  | split
  | dsimp only
  all_goals simp [Tools.calendarErr]

theorem gmailF_sink (env : GmailEnvF) :
    (Functions.get_gmail_emails env).delivered
      = [(Functions.get_gmail_emails env).ret] := by
  unfold Functions.get_gmail_emails
  repeat' first
  | split
  | dsimp only
  all_goals simp [Functions.gmailErr]

theorem gmailT_sink (env : GmailEnvT) :
    (Tools.get_gmail_emails env).delivered
      = [(Tools.get_gmail_emails env).ret] := by
  unfold Tools.get_gmail_emails
  repeat' first
  | split
  | dsimp only
  all_goals simp [Tools.gmailErr]

theorem waF_sink (env : TwilioEnvF) (arguments : List (String × String)) :
    (Functions.send_whatsapp_reminder env arguments).delivered
      = [(Functions.send_whatsapp_reminder env arguments).ret] := by
  unfold Functions.send_whatsapp_reminder
  repeat' first
  | split
  | dsimp only
  all_goals simp [Functions.waErr]

theorem waT_sink (env : TwilioEnvT) (arguments : List (String × String)) :
    (Tools.send_whatsapp_reminder env arguments).delivered
      = [(Tools.send_whatsapp_reminder env arguments).ret] := by
  unfold Tools.send_whatsapp_reminder
  repeat' first
  | split
  | dsimp only
  all_goals simp [Tools.waErr]

theorem calF_raise (env : CalendarEnvF) (now : Int) (h : env.anyRaise) :
    StartsWithError (Functions.get_calendar_events env now).ret := by
  unfold Functions.get_calendar_events
  cases hpf : env.pushFrame with
  | error e1 =>
    simp only [hpf, Functions.calendarErr]
    exact startsWithError_calendar e1
  | ok u =>
    cases hcr : credsStep env.gauth with
    | error e2 =>
      simp only [hpf, hcr, Functions.calendarErr]
      exact startsWithError_calendar e2
    | ok c =>
      cases hit : env.items with
      | error e3 =>
        simp only [hpf, hcr, hit, Functions.calendarErr]
        exact startsWithError_calendar e3
      | ok l =>
        exfalso
        rcases h with ⟨e, he⟩ | ⟨e, he⟩ | ⟨e, he⟩
        · rw [hpf] at he; cases he
        · rw [hcr] at he; cases he
        · rw [hit] at he; cases he

theorem calT_raise (env : CalendarEnvT) (now : Int) (h : env.anyRaise) :
    StartsWithError (Tools.get_calendar_events env now).ret := by
  unfold Tools.get_calendar_events
  cases hcr : credsStep env.gauth with
  | error e2 =>
    simp only [hcr, Tools.calendarErr]
    exact startsWithError_calendar e2
  | ok c =>
    cases hit : env.items with
    | error e3 =>
      simp only [hcr, hit, Tools.calendarErr]
      exact startsWithError_calendar e3
    | ok l =>
      cases hm : mapE (Tools.processEvent env.localOff) (l.getD []) with
      | error e4 =>
        simp only [hcr, hit, hm, Tools.calendarErr]
        exact startsWithError_calendar e4
      | ok es =>
        exfalso
        rcases h with ⟨e, he⟩ | ⟨e, he⟩ | ⟨l0, e, hl0, he⟩
        · rw [hcr] at he; cases he
        · rw [hit] at he; cases he
        · rw [hit] at hl0
          cases hl0
          rw [hm] at he; cases he

theorem gmailF_raise (env : GmailEnvF) (h : env.anyRaise) :
    StartsWithError (Functions.get_gmail_emails env).ret := by
  unfold Functions.get_gmail_emails
  cases hpf : env.pushFrame with
  | error e1 =>
    simp only [hpf, Functions.gmailErr]
    exact startsWithError_gmail e1
  | ok u =>
    cases hcr : credsStep env.gauth with
    | error e2 =>
      simp only [hpf, hcr, Functions.gmailErr]
      exact startsWithError_gmail e2
    | ok c =>
      cases hms : env.messages with
      | error e3 =>
        simp only [hpf, hcr, hms, Functions.gmailErr]
        exact startsWithError_gmail e3
      | ok l =>
        cases hm : mapE (Functions.processMessage env.fetch) (l.getD []) with
        | error e4 =>
          simp only [hpf, hcr, hms, hm, Functions.gmailErr]
          exact startsWithError_gmail e4
        | ok es =>
          exfalso
          rcases h with ⟨e, he⟩ | ⟨e, he⟩ | ⟨e, he⟩ | ⟨l0, e, hl0, he⟩
          · rw [hpf] at he; cases he
          · rw [hcr] at he; cases he
          · rw [hms] at he; cases he
          · rw [hms] at hl0
            cases hl0
            rw [hm] at he; cases he

theorem gmailT_raise (env : GmailEnvT) (h : env.anyRaise) :
    StartsWithError (Tools.get_gmail_emails env).ret := by
  unfold Tools.get_gmail_emails
  cases hcr : credsStep env.gauth with
  | error e2 =>
    simp only [hcr, Tools.gmailErr]
    exact startsWithError_gmail e2
  | ok c =>
    cases hms : env.messages with
    | error e3 =>
      simp only [hcr, hms, Tools.gmailErr]
      exact startsWithError_gmail e3
    | ok l =>
      cases hm : mapE (Tools.processMessage env.fetch) (l.getD []) with
      | error e4 =>
        simp only [hcr, hms, hm, Tools.gmailErr]
        exact startsWithError_gmail e4
      | ok es =>
        exfalso
        rcases h with ⟨e, he⟩ | ⟨e, he⟩ | ⟨l0, e, hl0, he⟩
        · rw [hcr] at he; cases he
        · rw [hms] at he; cases he
        · rw [hms] at hl0
          cases hl0
          rw [hm] at he; cases he

theorem waF_raise (env : TwilioEnvF) (arguments : List (String × String))
    (h : env.anyRaise) :
    StartsWithError (Functions.send_whatsapp_reminder env arguments).ret := by
  unfold Functions.send_whatsapp_reminder
  cases hpf : env.pushFrame with
  | error e1 =>
    simp only [hpf, Functions.waErr]
    exact startsWithError_wa e1
  | ok u =>
    cases hcm : env.createResult with
    | error e2 =>
      simp only [hpf, hcm, Functions.waErr]
      exact startsWithError_wa e2
    | ok sid =>
      exfalso
      rcases h with ⟨e, he⟩ | ⟨e, he⟩
      · rw [hpf] at he; cases he
      · rw [hcm] at he; cases he

theorem waT_raise (env : TwilioEnvT) (arguments : List (String × String))
    (h : env.anyRaise) :
    StartsWithError (Tools.send_whatsapp_reminder env arguments).ret := by
  unfold Tools.send_whatsapp_reminder
  cases hcm : env.createResult with
  | error e2 =>
    simp only [hcm, Tools.waErr]
    exact startsWithError_wa e2
  | ok sid =>
    exfalso
    rcases h with ⟨e, he⟩
    rw [hcm] at he; cases he

theorem processEventF_isSome (off : Int) (e : GEvent) :
    (Functions.processEvent off e).isSome = eventTimed e := by
  unfold Functions.processEvent eventTimed
  cases hs : e.start.bind GStart.dateTime <;>
    cases he : e.end_.bind GStart.dateTime <;> simp

theorem processEventF_mem (off : Int) (l : List GEvent) :
    ∀ en ∈ l.filterMap (Functions.processEvent off),
      Is12h en.start_time ∧ Is12h en.end_time := by
  intro en hen
  rcases List.mem_filterMap.mp hen with ⟨a, _, ha⟩
  unfold Functions.processEvent at ha
  cases hs : a.start.bind GStart.dateTime with
  | none => rw [hs] at ha; simp at ha
  | some sdt =>
    cases he : a.end_.bind GStart.dateTime with
    | none => rw [hs, he] at ha; simp at ha
    | some edt =>
      rw [hs, he] at ha
      simp only [Option.some.injEq] at ha
      subst ha
      exact ⟨strftimeIMp_is12h _, strftimeIMp_is12h _⟩

theorem processEventT_timed (off : Int) (e : GEvent) (h : eventTimed e = true) :
    ∃ sm d1 d2, Tools.processEvent off e = .ok ⟨sm, strftimeIMp d1, some (strftimeIMp d2)⟩ := by
  unfold eventTimed at h
  simp only [Bool.and_eq_true] at h
  obtain ⟨h1, h2⟩ := h
  cases hst : e.start with
  | none => simp [hst] at h1
  | some st =>
    cases hdt : st.dateTime with
    | none => simp [hst, hdt] at h1
    | some sdt =>
      cases hen : e.end_ with
      | none => simp [hen] at h2
      | some en =>
        cases hedt : en.dateTime with
        | none => simp [hen, hedt] at h2
        | some edt =>
          refine ⟨e.summary.getD ("No title"),
            (if sdt.tz.isSome then astimezoneLocal off sdt else sdt),
            (if edt.tz.isSome then astimezoneLocal off edt else edt), ?_⟩
          simp [Tools.processEvent, Tools.startVal, Tools.startTime, Tools.endTime,
            hst, hdt, hen, hedt]

theorem processEventT_allday (off : Int) (e : GEvent) (h : eventAllDay e = true) :
    ∃ sm, Tools.processEvent off e = .ok ⟨sm, ("All day"), some ("All day")⟩ := by
  unfold eventAllDay at h
  cases hst : e.start with
  | none => rw [hst] at h; cases hen : e.end_ <;> rw [hen] at h <;> simp at h
  | some st =>
    rw [hst] at h
    cases hen : e.end_ with
    | none => rw [hen] at h; simp at h
    | some en =>
      rw [hen] at h
      dsimp only at h
      cases hsd : st.date with
      | none => rw [hsd] at h; cases hed : en.date <;> rw [hed] at h <;> simp at h
      | some ds =>
        rw [hsd] at h
        cases hed : en.date with
        | none => rw [hed] at h; simp at h
        | some de =>
          rw [hed] at h
          dsimp only at h
          simp only [Bool.and_eq_true, Option.isNone_iff_eq_none,
            Bool.not_eq_true'] at h
          obtain ⟨⟨hd1, hd2⟩, ⟨⟨hT1, hT2⟩, hne1⟩, hne2⟩ := h
          have hc1 : ds.data.contains (Char.ofNat 84) = false := by
            simpa [noT] using hT1
          have hc2 : de.data.contains (Char.ofNat 84) = false := by
            simpa [noT] using hT2
          have hm1 : ¬ Char.ofNat 84 ∈ ds.data := by simpa using hc1
          have hm2 : ¬ Char.ofNat 84 ∈ de.data := by simpa using hc2
          refine ⟨e.summary.getD ("No title"), ?_⟩
          simp [Tools.processEvent, Tools.startVal, Tools.startTime, Tools.endTime,
            hst, hen, hd1, hd2, hsd, hed, hc1, hc2, hne1, hne2, hm1, hm2]

/-! ## Claim theorems -/

/-- C1: for every tool handler (`get_calendar_events`, `get_gmail_emails`,
`send_whatsapp_reminder`, in both the `functions.py` and `tools.py`
variants) and every invocation — normal completion or caught exception —
the string the handler returns is exactly the string it delivered to the
result sink (`params.result_callback`): the delivery trace is precisely
one string, the returned one. -/
theorem handlers_return_eq_sink :
    (∀ (env : CalendarEnvF) (now : Int),
        (Functions.get_calendar_events env now).delivered
          = [(Functions.get_calendar_events env now).ret]) ∧
    (∀ (env : CalendarEnvT) (now : Int),
        (Tools.get_calendar_events env now).delivered
          = [(Tools.get_calendar_events env now).ret]) ∧
    (∀ env : GmailEnvF,
        (Functions.get_gmail_emails env).delivered
          = [(Functions.get_gmail_emails env).ret]) ∧
    (∀ env : GmailEnvT,
        (Tools.get_gmail_emails env).delivered
          = [(Tools.get_gmail_emails env).ret]) ∧
    (∀ (env : TwilioEnvF) (arguments : List (String × String)),
        (Functions.send_whatsapp_reminder env arguments).delivered
          = [(Functions.send_whatsapp_reminder env arguments).ret]) ∧
    (∀ (env : TwilioEnvT) (arguments : List (String × String)),
        (Tools.send_whatsapp_reminder env arguments).delivered
          = [(Tools.send_whatsapp_reminder env arguments).ret]) :=
  ⟨calF_sink, calT_sink, gmailF_sink, gmailT_sink, waF_sink, waT_sink⟩

/-- C3: whenever any modelled step inside a handler's `try` body raises,
the handler catches it, the returned string starts with the word `Error`,
and the same string is what was delivered to the result sink; in the
embedding the handlers are total functions into strings, so no exception
crosses the handler boundary. -/
theorem handlers_catch_exceptions :
    (∀ (env : CalendarEnvF) (now : Int), env.anyRaise →
        StartsWithError (Functions.get_calendar_events env now).ret ∧
        (Functions.get_calendar_events env now).delivered
          = [(Functions.get_calendar_events env now).ret]) ∧
    (∀ (env : CalendarEnvT) (now : Int), env.anyRaise →
        StartsWithError (Tools.get_calendar_events env now).ret ∧
        (Tools.get_calendar_events env now).delivered
          = [(Tools.get_calendar_events env now).ret]) ∧
    (∀ env : GmailEnvF, env.anyRaise →
        StartsWithError (Functions.get_gmail_emails env).ret ∧
        (Functions.get_gmail_emails env).delivered
          = [(Functions.get_gmail_emails env).ret]) ∧
    (∀ env : GmailEnvT, env.anyRaise →
        StartsWithError (Tools.get_gmail_emails env).ret ∧
        (Tools.get_gmail_emails env).delivered
          = [(Tools.get_gmail_emails env).ret]) ∧
    (∀ (env : TwilioEnvF) (arguments : List (String × String)), env.anyRaise →
        StartsWithError (Functions.send_whatsapp_reminder env arguments).ret ∧
        (Functions.send_whatsapp_reminder env arguments).delivered
          = [(Functions.send_whatsapp_reminder env arguments).ret]) ∧
    (∀ (env : TwilioEnvT) (arguments : List (String × String)), env.anyRaise →
        StartsWithError (Tools.send_whatsapp_reminder env arguments).ret ∧
        (Tools.send_whatsapp_reminder env arguments).delivered
          = [(Tools.send_whatsapp_reminder env arguments).ret]) :=
  ⟨fun env now h => ⟨calF_raise env now h, calF_sink env now⟩,
   fun env now h => ⟨calT_raise env now h, calT_sink env now⟩,
   fun env h => ⟨gmailF_raise env h, gmailF_sink env⟩,
   fun env h => ⟨gmailT_raise env h, gmailT_sink env⟩,
   fun env args h => ⟨waF_raise env args h, waF_sink env args⟩,
   fun env args h => ⟨waT_raise env args h, waT_sink env args⟩⟩

/-- Witness for C3: concrete failing environments for all six handlers. -/
theorem handlers_catch_exceptions_witness :
    (StartsWithError (Functions.get_calendar_events calendarEnvFBad 0).ret ∧
      (Functions.get_calendar_events calendarEnvFBad 0).delivered
        = [(Functions.get_calendar_events calendarEnvFBad 0).ret]) ∧
    (StartsWithError (Tools.get_calendar_events calendarEnvTBad 0).ret ∧
      (Tools.get_calendar_events calendarEnvTBad 0).delivered
        = [(Tools.get_calendar_events calendarEnvTBad 0).ret]) ∧
    (StartsWithError (Functions.get_gmail_emails gmailEnvFBad).ret ∧
      (Functions.get_gmail_emails gmailEnvFBad).delivered
        = [(Functions.get_gmail_emails gmailEnvFBad).ret]) ∧
    (StartsWithError (Tools.get_gmail_emails gmailEnvTBad).ret ∧
      (Tools.get_gmail_emails gmailEnvTBad).delivered
        = [(Tools.get_gmail_emails gmailEnvTBad).ret]) ∧
    (StartsWithError (Functions.send_whatsapp_reminder waEnvFBad waArgs).ret ∧
      (Functions.send_whatsapp_reminder waEnvFBad waArgs).delivered
        = [(Functions.send_whatsapp_reminder waEnvFBad waArgs).ret]) ∧
    (StartsWithError (Tools.send_whatsapp_reminder waEnvTBad waArgs).ret ∧
      (Tools.send_whatsapp_reminder waEnvTBad waArgs).delivered
        = [(Tools.send_whatsapp_reminder waEnvTBad waArgs).ret]) :=
  ⟨handlers_catch_exceptions.1 calendarEnvFBad 0 (Or.inl ⟨("boom"), rfl⟩),
   handlers_catch_exceptions.2.1 calendarEnvTBad 0 (Or.inr (Or.inl ⟨("boom"), rfl⟩)),
   handlers_catch_exceptions.2.2.1 gmailEnvFBad (Or.inl ⟨("boom"), rfl⟩),
   handlers_catch_exceptions.2.2.2.1 gmailEnvTBad (Or.inr (Or.inl ⟨("boom"), rfl⟩)),
   handlers_catch_exceptions.2.2.2.2.1 waEnvFBad waArgs (Or.inl ⟨("boom"), rfl⟩),
   handlers_catch_exceptions.2.2.2.2.2 waEnvTBad waArgs ⟨("boom"), rfl⟩⟩

/-- C2: with a cached token file whose loaded credentials are valid,
`get_google_credentials` returns them as-is — no refresh, no interactive
flow, no token-cache write; with cached credentials that are expired and
carry a refresh token, it performs exactly one (successful) refresh and
then writes the refreshed credentials to the token-cache path before
returning them. -/
theorem google_credentials_cache_behavior :
    (∀ env : GoogleAuthEnv, env.tokenFileExists = true →
        env.loadedCreds.valid = true →
        get_google_credentials env = ⟨.ok env.loadedCreds, 0, 0, []⟩) ∧
    (∀ (env : GoogleAuthEnv) (c2 : Creds), env.tokenFileExists = true →
        env.loadedCreds.expired = true →
        pyTruthy env.loadedCreds.refresh_token = true →
        env.refreshResult = .ok c2 →
        get_google_credentials env
          = ⟨.ok c2, 1, 0, [(env.googleTokenPathVar.getD ("token.json"), c2.toJson)]⟩) := by
  constructor
  · intro env h1 h2
    simp [get_google_credentials, h1, h2]
  · intro env c2 h1 h2 h3 h4
    have hv : env.loadedCreds.valid = false := by simp [Creds.valid, h2]
    simp [get_google_credentials, h1, hv, h2, h3, h4]

/-- Witness for C2: a valid cache is returned untouched, and an expired
refreshable cache is refreshed once and persisted. -/
theorem google_credentials_cache_behavior_witness :
    get_google_credentials authEnvOk = ⟨.ok validCreds, 0, 0, []⟩ ∧
    get_google_credentials authEnvExpired
      = ⟨.ok refreshedCreds, 1, 0, [(("tok-cache.json"), ("refreshed-token-json"))]⟩ :=
  ⟨google_credentials_cache_behavior.1 authEnvOk rfl (by decide),
   google_credentials_cache_behavior.2 authEnvExpired refreshedCreds rfl rfl (by decide) rfl⟩

/-- C9: when no usable cached or refreshable token exists and the
client-secrets file is absent, `get_google_credentials` raises the
`FileNotFoundError` with its configured message — it runs no interactive
flow, performs no refresh, and writes nothing. -/
theorem credentials_file_missing_raises :
    ∀ env : GoogleAuthEnv,
      (env.tokenFileExists = false ∨
        (env.loadedCreds.valid = false ∧
          (env.loadedCreds.expired && pyTruthy env.loadedCreds.refresh_token) = false)) →
      env.credentialsFileExists = false →
      get_google_credentials env
        = ⟨.error (.fileNotFound
            (fileNotFoundMsg (env.googleCredentialsPathVar.getD ("credentials.json")))),
           0, 0, []⟩ := by
  intro env hneed hcf
  rcases hneed with h | ⟨hv, hg⟩
  · simp [get_google_credentials, h, hcf]
  · cases htf : env.tokenFileExists
    · simp [get_google_credentials, htf, hcf]
    · simp [get_google_credentials, htf, hv, hg, hcf]

/-- Witness for C9: no token cache and no client-secrets file. -/
theorem credentials_file_missing_raises_witness :
    get_google_credentials authEnvNoFiles
      = ⟨.error (.fileNotFound (fileNotFoundMsg ("conf/credentials.json"))), 0, 0, []⟩ :=
  credentials_file_missing_raises authEnvNoFiles (Or.inl rfl) rfl

/-- C7: every `messages.create` call a WhatsApp handler issues has
`to = "whatsapp:" + configured recipient`, `from = "whatsapp:" +
configured sender`, and the supplied reminder text as its body; and on
the paths that reach the provider, exactly one such call is issued. -/
theorem whatsapp_provider_call_fields :
    ∀ (envF : TwilioEnvF) (envT : TwilioEnvT) (args : List (String × String))
      (f r txt : String),
      envF.twilio_whatsapp_number = some f → envF.recipient_number = some r →
      envT.twilio_whatsapp_number = some f → envT.recipient_number = some r →
      args.lookup ("reminder_text") = some txt →
      (∀ c ∈ (Functions.send_whatsapp_reminder envF args).calls,
          c.to_ = ("whatsapp:") ++ r ∧ c.from_ = ("whatsapp:") ++ f ∧ c.body = txt) ∧
      (envF.pushFrame = .ok () →
        (Functions.send_whatsapp_reminder envF args).calls
          = [⟨("whatsapp:") ++ f, txt, ("whatsapp:") ++ r⟩]) ∧
      (Tools.send_whatsapp_reminder envT args).calls
        = [⟨("whatsapp:") ++ f, txt, ("whatsapp:") ++ r⟩] := by
  intro envF envT args f r txt hf hr hf2 hr2 hl
  refine ⟨?_, ?_, ?_⟩
  · intro c hc
    unfold Functions.send_whatsapp_reminder at hc
    cases hpf : envF.pushFrame with
    | error e =>
      rw [hpf] at hc
      simp [Functions.waErr] at hc
    | ok u =>
      rw [hpf] at hc
      dsimp only at hc
      cases hcm : envF.createResult <;> rw [hcm] at hc <;>
        simp [Functions.waErr, hf, hr, hl, pyFStrOpt] at hc <;>
        (rw [hc]; exact ⟨rfl, rfl, rfl⟩)
  · intro hpf
    cases hcm : envF.createResult <;>
      simp [Functions.send_whatsapp_reminder, Functions.waErr, hpf, hcm, hf, hr, hl,
        pyFStrOpt]
  · cases hcm : envT.createResult <;>
      simp [Tools.send_whatsapp_reminder, Tools.waErr, hcm, hf2, hr2, hl, pyFStrOpt]

/-- Witness for C7: a fully configured environment and a supplied
reminder text. -/
theorem whatsapp_provider_call_fields_witness :
    (∀ c ∈ (Functions.send_whatsapp_reminder waEnvFOk waArgs).calls,
        c.to_ = ("whatsapp:") ++ ("+16507303690") ∧
        c.from_ = ("whatsapp:") ++ ("+14155238886") ∧ c.body = ("Buy milk at 5pm")) ∧
    (waEnvFOk.pushFrame = .ok () →
      (Functions.send_whatsapp_reminder waEnvFOk waArgs).calls
        = [⟨("whatsapp:") ++ ("+14155238886"), ("Buy milk at 5pm"),
            ("whatsapp:") ++ ("+16507303690")⟩]) ∧
    (Tools.send_whatsapp_reminder waEnvTOk waArgs).calls
      = [⟨("whatsapp:") ++ ("+14155238886"), ("Buy milk at 5pm"),
          ("whatsapp:") ++ ("+16507303690")⟩] :=
  whatsapp_provider_call_fields waEnvFOk waEnvTOk waArgs ("+14155238886")
    ("+16507303690") ("Buy milk at 5pm") rfl rfl rfl rfl rfl

/-- C10: an invocation whose argument mapping lacks `reminder_text` is not
rejected: the body defaults to the empty string, one provider call with
that empty body goes to the configured numbers, and on provider success
the fixed confirmation string is returned. -/
theorem whatsapp_missing_arg_defaults :
    ∀ (envF : TwilioEnvF) (envT : TwilioEnvT) (args : List (String × String))
      (sidF sidT : String),
      args.lookup ("reminder_text") = none →
      envF.pushFrame = .ok () → envF.createResult = .ok sidF →
      envT.createResult = .ok sidT →
      (Functions.send_whatsapp_reminder envF args).calls
        = [⟨("whatsapp:") ++ pyFStrOpt envF.twilio_whatsapp_number, (""),
            ("whatsapp:") ++ pyFStrOpt envF.recipient_number⟩] ∧
      (Functions.send_whatsapp_reminder envF args).ret
        = ("Reminder sent to WhatsApp successfully!") ∧
      (Tools.send_whatsapp_reminder envT args).calls
        = [⟨("whatsapp:") ++ pyFStrOpt envT.twilio_whatsapp_number, (""),
            ("whatsapp:") ++ pyFStrOpt envT.recipient_number⟩] ∧
      (Tools.send_whatsapp_reminder envT args).ret
        = ("Reminder sent to WhatsApp successfully!") := by
  intro envF envT args sidF sidT hl hpf hcF hcT
  refine ⟨?_, ?_, ?_, ?_⟩ <;>
    simp [Functions.send_whatsapp_reminder, Tools.send_whatsapp_reminder,
      hl, hpf, hcF, hcT]

/-- Witness for C10: an empty argument mapping with working provider
environments. -/
theorem whatsapp_missing_arg_defaults_witness :
    (Functions.send_whatsapp_reminder waEnvFOk waArgsEmpty).calls
      = [⟨("whatsapp:") ++ pyFStrOpt waEnvFOk.twilio_whatsapp_number, (""),
          ("whatsapp:") ++ pyFStrOpt waEnvFOk.recipient_number⟩] ∧
    (Functions.send_whatsapp_reminder waEnvFOk waArgsEmpty).ret
      = ("Reminder sent to WhatsApp successfully!") ∧
    (Tools.send_whatsapp_reminder waEnvTOk waArgsEmpty).calls
      = [⟨("whatsapp:") ++ pyFStrOpt waEnvTOk.twilio_whatsapp_number, (""),
          ("whatsapp:") ++ pyFStrOpt waEnvTOk.recipient_number⟩] ∧
    (Tools.send_whatsapp_reminder waEnvTOk waArgsEmpty).ret
      = ("Reminder sent to WhatsApp successfully!") :=
  whatsapp_missing_arg_defaults waEnvFOk waEnvTOk waArgsEmpty ("SM123") ("SM123")
    rfl rfl rfl rfl

/-- Counterexample for C6: on a successful send of `"Buy milk at 5pm"`,
both variants return the fixed string
`"Reminder sent to WhatsApp successfully!"`, which does not contain the
message body — the confirmation does not echo the content. -/
theorem whatsapp_confirmation_counterexample :
    (Functions.send_whatsapp_reminder waEnvFOk waArgs).ret
      = ("Reminder sent to WhatsApp successfully!") ∧
    pyInStr ("Buy milk at 5pm") (Functions.send_whatsapp_reminder waEnvFOk waArgs).ret
      = false ∧
    (Tools.send_whatsapp_reminder waEnvTOk waArgs).ret
      = ("Reminder sent to WhatsApp successfully!") ∧
    pyInStr ("Buy milk at 5pm") (Tools.send_whatsapp_reminder waEnvTOk waArgs).ret
      = false := by
  decide

/-- C6 (amended): every successful invocation of either WhatsApp handler
returns the fixed confirmation string
`"Reminder sent to WhatsApp successfully!"`; the message content is not
echoed in it. -/
theorem whatsapp_fixed_confirmation :
    ∀ (envF : TwilioEnvF) (envT : TwilioEnvT) (args : List (String × String))
      (sidF sidT : String),
      envF.pushFrame = .ok () → envF.createResult = .ok sidF →
      envT.createResult = .ok sidT →
      (Functions.send_whatsapp_reminder envF args).ret
        = ("Reminder sent to WhatsApp successfully!") ∧
      (Tools.send_whatsapp_reminder envT args).ret
        = ("Reminder sent to WhatsApp successfully!") := by
  intro envF envT args sidF sidT hpf hcF hcT
  constructor <;>
    simp [Functions.send_whatsapp_reminder, Tools.send_whatsapp_reminder, hpf, hcF, hcT]

/-- Witness for the amended C6. -/
theorem whatsapp_fixed_confirmation_witness :
    (Functions.send_whatsapp_reminder waEnvFOk waArgs).ret
      = ("Reminder sent to WhatsApp successfully!") ∧
    (Tools.send_whatsapp_reminder waEnvTOk waArgs).ret
      = ("Reminder sent to WhatsApp successfully!") :=
  whatsapp_fixed_confirmation waEnvFOk waEnvTOk waArgs ("SM123") ("SM123") rfl rfl rfl

/-- Counterexample for C5: in the `functions.py` variant, a fetched
message whose header list lacks a `Subject` header does NOT get a
placeholder — the undefaulted `next(...)` raises `StopIteration`
(`str(e) = ""`), the catch-all turns the whole invocation into an error
string, and no normalized entry is produced. -/
theorem gmail_missing_subject_counterexample :
    (Functions.get_gmail_emails gmailEnvNoSubjF).normalized = [] ∧
    (Functions.get_gmail_emails gmailEnvNoSubjF).ret
      = ("Error retrieving Gmail emails: ") := by
  decide

/-- C5 (amended): only the `tools.py` variant defaults a missing
`Subject`/`From` header to the placeholders `"No subject"` /
`"Unknown sender"` and still produces the entry; in the `functions.py`
variant a missing `Subject` header raises `StopIteration`, which the
catch-all converts into an error result for the whole invocation, with no
normalized entries. -/
theorem gmail_missing_header_defaults :
    (∀ (envT : GmailEnvT) (id : String) (msg : GmailMessage)
        (payload : GmailPayload) (c : Creds),
        credsStep envT.gauth = .ok c →
        envT.messages = .ok (some [id]) → envT.fetch id = .ok msg →
        msg.payload = some payload →
        (payload.headers.getD []).find? (fun h => h.name == ("Subject")) = none →
        (payload.headers.getD []).find? (fun h => h.name == ("From")) = none →
        (Tools.get_gmail_emails envT).normalized
          = [⟨msg.snippet.getD (""), ("No subject"), ("Unknown sender")⟩] ∧
        (Tools.get_gmail_emails envT).ret
          = jsonDumpsEmails [⟨msg.snippet.getD (""), ("No subject"), ("Unknown sender")⟩]) ∧
    (∀ (envF : GmailEnvF) (id : String) (msg : GmailMessage) (sn : String)
        (payload : GmailPayload) (hs : List GmailHeader) (c : Creds),
        envF.pushFrame = .ok () → credsStep envF.gauth = .ok c →
        envF.messages = .ok (some [id]) → envF.fetch id = .ok msg →
        msg.snippet = some sn → msg.payload = some payload →
        payload.headers = some hs →
        hs.find? (fun h => h.name == ("Subject")) = none →
        (Functions.get_gmail_emails envF).normalized = [] ∧
        (Functions.get_gmail_emails envF).ret
          = ("Error retrieving Gmail emails: ")) := by
  constructor
  · intro envT id msg payload c hcr hms hfetch hpl hsub hfrom
    have hm : mapE (Tools.processMessage envT.fetch) [id]
        = .ok [⟨msg.snippet.getD (""), ("No subject"), ("Unknown sender")⟩] := by
      simp [mapE, Tools.processMessage, hfetch, hpl, hsub, hfrom]
    constructor <;> simp [Tools.get_gmail_emails, hcr, hms, hm]
  · intro envF id msg sn payload hs c hpf hcr hms hfetch hsn hpl hhs hsub
    have hm : mapE (Functions.processMessage envF.fetch) [id] = .error ("") := by
      simp [mapE, Functions.processMessage, hfetch, hsn, hpl, hhs, hsub]
    constructor <;>
      simp [Functions.get_gmail_emails, Functions.gmailErr, hpf, hcr, hms, hm]

/-- Witness for the amended C5: the same subject-less message through both
variants. -/
theorem gmail_missing_header_defaults_witness :
    ((Tools.get_gmail_emails gmailEnvNoSubjT).normalized
        = [⟨noSubjectMsg.snippet.getD (""), ("No subject"), ("Unknown sender")⟩] ∧
      (Tools.get_gmail_emails gmailEnvNoSubjT).ret
        = jsonDumpsEmails
            [⟨noSubjectMsg.snippet.getD (""), ("No subject"), ("Unknown sender")⟩]) ∧
    ((Functions.get_gmail_emails gmailEnvNoSubjF).normalized = [] ∧
      (Functions.get_gmail_emails gmailEnvNoSubjF).ret
        = ("Error retrieving Gmail emails: ")) :=
  ⟨gmail_missing_header_defaults.1 gmailEnvNoSubjT ("id1") noSubjectMsg
      ⟨some [⟨("X-Priority"), ("1")⟩]⟩ validCreds rfl rfl rfl rfl
      (by decide) (by decide),
   gmail_missing_header_defaults.2 gmailEnvNoSubjF ("id1") noSubjectMsg
      ("You got mail") ⟨some [⟨("X-Priority"), ("1")⟩]⟩
      [⟨("X-Priority"), ("1")⟩] validCreds rfl rfl rfl rfl rfl rfl rfl
      (by decide)⟩

/-- C4: for a provider response of `N` well-formed events of which `K` are
timed (both `start` and `end` carry a `dateTime`) and `N - K` are all-day,
the `functions.py` handler's normalized list has exactly `K` entries (it
skips all-day events) while the `tools.py` handler's has exactly `N` (it
labels all-day events `"All day"`); every timed entry's `start_time` and
`end_time` is a zero-padded 12-hour `hh:mm AM/PM` string, and each
handler's returned string is the JSON dump of its list. -/
theorem calendar_normalization_counts :
    ∀ (evts : List GEvent) (N K : Nat) (envF : CalendarEnvF) (envT : CalendarEnvT)
      (nowF nowT : Int) (cF cT : Creds),
      (∀ e ∈ evts, eventTimed e = true ∨ eventAllDay e = true) →
      evts.length = N → evts.countP eventTimed = K →
      envF.pushFrame = .ok () → credsStep envF.gauth = .ok cF →
      envF.items = .ok (some evts) →
      credsStep envT.gauth = .ok cT → envT.items = .ok (some evts) →
      ((evts.filterMap (Functions.processEvent envF.localOff)).length = K ∧
        (Functions.get_calendar_events envF nowF).ret
          = jsonDumpsCalF (evts.filterMap (Functions.processEvent envF.localOff)) ∧
        (∀ en ∈ evts.filterMap (Functions.processEvent envF.localOff),
            Is12h en.start_time ∧ Is12h en.end_time)) ∧
      (∃ l, mapE (Tools.processEvent envT.localOff) evts = .ok l ∧ l.length = N ∧
        (Tools.get_calendar_events envT nowT).ret = jsonDumpsCalT l ∧
        (∀ en ∈ l,
            (Is12h en.start_time ∧ ∃ s, en.end_time = some s ∧ Is12h s) ∨
            (en.start_time = ("All day") ∧ en.end_time = some ("All day")))) := by
  intro evts N K envF envT nowF nowT cF cT hwf hN hK hpf hcrF hitF hcrT hitT
  constructor
  · refine ⟨?_, ?_, processEventF_mem envF.localOff evts⟩
    · rw [← hK]
      exact length_filterMap_eq_countP (Functions.processEvent envF.localOff)
        eventTimed (processEventF_isSome envF.localOff) evts
    · simp [Functions.get_calendar_events, hpf, hcrF, hitF]
  · have hall : ∀ a ∈ evts, ∃ b, Tools.processEvent envT.localOff a = .ok b ∧
        ((Is12h b.start_time ∧ ∃ s, b.end_time = some s ∧ Is12h s) ∨
          (b.start_time = ("All day") ∧ b.end_time = some ("All day"))) := by
      intro a ha
      rcases hwf a ha with ht | hd
      · obtain ⟨sm, d1, d2, heq⟩ := processEventT_timed envT.localOff a ht
        exact ⟨_, heq, Or.inl ⟨strftimeIMp_is12h d1, strftimeIMp d2, rfl,
          strftimeIMp_is12h d2⟩⟩
      · obtain ⟨sm, heq⟩ := processEventT_allday envT.localOff a hd
        exact ⟨_, heq, Or.inr ⟨rfl, rfl⟩⟩
    obtain ⟨l, hm, hlen, hP⟩ := mapE_ok_of_forall (Tools.processEvent envT.localOff)
      (fun en => (Is12h en.start_time ∧ ∃ s, en.end_time = some s ∧ Is12h s) ∨
        (en.start_time = ("All day") ∧ en.end_time = some ("All day"))) evts hall
    refine ⟨l, hm, by rw [hlen, hN], ?_, hP⟩
    simp [Tools.get_calendar_events, hcrT, hitT, hm]

/-- Witness for C4: two events, one timed and one all-day, through both
handlers. -/
theorem calendar_normalization_counts_witness :
    ((wEvts.filterMap (Functions.processEvent calendarEnvFW.localOff)).length = 1 ∧
      (Functions.get_calendar_events calendarEnvFW 0).ret
        = jsonDumpsCalF (wEvts.filterMap (Functions.processEvent calendarEnvFW.localOff)) ∧
      (∀ en ∈ wEvts.filterMap (Functions.processEvent calendarEnvFW.localOff),
          Is12h en.start_time ∧ Is12h en.end_time)) ∧
    (∃ l, mapE (Tools.processEvent calendarEnvTW.localOff) wEvts = .ok l ∧
      l.length = 2 ∧
      (Tools.get_calendar_events calendarEnvTW 0).ret = jsonDumpsCalT l ∧
      (∀ en ∈ l,
          (Is12h en.start_time ∧ ∃ s, en.end_time = some s ∧ Is12h s) ∨
          (en.start_time = ("All day") ∧ en.end_time = some ("All day")))) :=
  calendar_normalization_counts wEvts 2 1 calendarEnvFW calendarEnvTW 0 0
    validCreds validCreds (by decide) rfl (by decide) rfl rfl rfl rfl rfl

/-- C8: the `functions.py` calendar handler queries the provider with
`timeMin` = local midnight of "now" and `timeMax` = midnight + 24 h, while
the `tools.py` variant subtracts one second from the 24-hour bound; both
bounds are the UTC ISO-8601 rendering with a `Z` suffix. -/
theorem calendar_day_window :
    ∀ (envF : CalendarEnvF) (envT : CalendarEnvT) (nowF nowT : Int) (cF cT : Creds),
      envF.pushFrame = .ok () → credsStep envF.gauth = .ok cF →
      credsStep envT.gauth = .ok cT →
      ((Functions.get_calendar_events envF nowF).queries
          = [⟨("primary"),
              utcIsoZ envF.localOff ⟨nowF - nowF.emod 86400, none⟩,
              utcIsoZ envF.localOff ⟨nowF - nowF.emod 86400 + 86400, none⟩,
              50, true, ("startTime")⟩] ∧
        EndsZ (utcIsoZ envF.localOff ⟨nowF - nowF.emod 86400, none⟩) ∧
        EndsZ (utcIsoZ envF.localOff ⟨nowF - nowF.emod 86400 + 86400, none⟩)) ∧
      ((Tools.get_calendar_events envT nowT).queries
          = [⟨("primary"),
              utcIsoZ envT.localOff ⟨nowT - nowT.emod 86400, some envT.localOff⟩,
              utcIsoZ envT.localOff ⟨nowT - nowT.emod 86400 + 86400 - 1, some envT.localOff⟩,
              50, true, ("startTime")⟩] ∧
        EndsZ (utcIsoZ envT.localOff ⟨nowT - nowT.emod 86400, some envT.localOff⟩) ∧
        EndsZ (utcIsoZ envT.localOff
          ⟨nowT - nowT.emod 86400 + 86400 - 1, some envT.localOff⟩)) := by
  intro envF envT nowF nowT cF cT hpf hcrF hcrT
  refine ⟨⟨?_, utcIsoZ_endsZ _ _, utcIsoZ_endsZ _ _⟩,
    ⟨?_, utcIsoZ_endsZ _ _, utcIsoZ_endsZ _ _⟩⟩
  · cases hit : envF.items <;>
      simp [Functions.get_calendar_events, Functions.calendarErr, hpf, hcrF, hit]
  · cases hit : envT.items with
    | error e =>
      simp [Tools.get_calendar_events, Tools.calendarErr, hcrT, hit]
    | ok l =>
      cases hm : mapE (Tools.processEvent envT.localOff) (l.getD []) <;>
        simp [Tools.get_calendar_events, Tools.calendarErr, hcrT, hit, hm]

/-- Witness for C8: concrete environments and a concrete "now". -/
theorem calendar_day_window_witness :
    ((Functions.get_calendar_events calendarEnvFW 50000).queries
        = [⟨("primary"),
            utcIsoZ calendarEnvFW.localOff ⟨(50000 : Int) - (50000 : Int).emod 86400, none⟩,
            utcIsoZ calendarEnvFW.localOff
              ⟨(50000 : Int) - (50000 : Int).emod 86400 + 86400, none⟩,
            50, true, ("startTime")⟩] ∧
      EndsZ (utcIsoZ calendarEnvFW.localOff
        ⟨(50000 : Int) - (50000 : Int).emod 86400, none⟩) ∧
      EndsZ (utcIsoZ calendarEnvFW.localOff
        ⟨(50000 : Int) - (50000 : Int).emod 86400 + 86400, none⟩)) ∧
    ((Tools.get_calendar_events calendarEnvTW 50000).queries
        = [⟨("primary"),
            utcIsoZ calendarEnvTW.localOff
              ⟨(50000 : Int) - (50000 : Int).emod 86400, some calendarEnvTW.localOff⟩,
            utcIsoZ calendarEnvTW.localOff
              ⟨(50000 : Int) - (50000 : Int).emod 86400 + 86400 - 1,
                some calendarEnvTW.localOff⟩,
            50, true, ("startTime")⟩] ∧
      EndsZ (utcIsoZ calendarEnvTW.localOff
        ⟨(50000 : Int) - (50000 : Int).emod 86400, some calendarEnvTW.localOff⟩) ∧
      EndsZ (utcIsoZ calendarEnvTW.localOff
        ⟨(50000 : Int) - (50000 : Int).emod 86400 + 86400 - 1,
          some calendarEnvTW.localOff⟩)) :=
  calendar_day_window calendarEnvFW calendarEnvTW 50000 50000 validCreds validCreds
    rfl rfl rfl
